import Mathlib

/-!
Shallow embedding of the enrichment and configuration logic of
`utils/report_tools.py` from the fantasy-football-metrics-weekly-report
repository, together with theorems settling the frozen claims about it.

Numbers: fantasy point values are embedded as exact rationals (`ℚ`);
Python `round(x, 2)` becomes `round2`.  Bad-boy points, offender counts
and covid-risk values are nonnegative integer scores and are embedded as
`ℕ`.  Seasons, weeks, calendar years and months are `ℤ`.

External metrics providers (bad-boy, beef, covid-risk, coaching
efficiency, luck, records) live outside the three source files; they are
embedded as abstract function-valued records, so every theorem below is
quantified over all possible provider behaviour.
-/

namespace ReportTools

/-- Rounding of an exact rational to 2 decimal places, the embedding of
Python `round(x, 2)` on the exact values that occur here. -/
def round2 (q : ℚ) : ℚ := ((round (q * 100) : ℤ) : ℚ) / 100

/-- Module-level constant `NFL_SEASON_LENGTH = 18` from `report_tools.py`. -/
def NFL_SEASON_LENGTH : ℤ := 18

/-- Canonical player record (`dao.base.BasePlayer`), restricted to the
fields read or written by `add_report_player_stats` and
`add_report_team_stats`.  The enrichment fields carry the neutral
defaults the source assigns (`str()`, `int()`, `float()`). -/
structure BasePlayer where
  first_name : String
  last_name : String
  full_name : String
  nfl_team_abbr : String
  primary_position : String
  selected_position : String
  points : ℚ
  bad_boy_crime : String := ""
  bad_boy_points : ℕ := 0
  bad_boy_num_offenders : ℕ := 0
  weight : ℚ := 0
  tabbu : ℚ := 0
  covid_risk : ℕ := 0
  deriving Repr, DecidableEq

/-- Canonical team record (`dao.base.BaseTeam`), restricted to the fields
touched by `add_report_team_stats`.  Aggregates that the source only
assigns under a feature toggle are `Option`-valued so that "never
populated" is observable. -/
structure BaseTeam where
  team_id : String
  name : String
  roster : List BasePlayer
  points : ℚ
  home_field_advantage : ℚ
  bench_points : ℚ := 0
  bad_boy_points : ℕ := 0
  worst_offense : Option String := none
  num_offenders : ℕ := 0
  worst_offense_score : ℕ := 0
  total_weight : Option ℚ := none
  tabbu : Option ℚ := none
  total_covid_risk : Option ℕ := none
  positions_filled_active : List String := []
  coaching_efficiency : ℚ := 0
  optimal_points : ℚ := 0
  luck : ℚ := 0
  weekly_overall_record : String := ""
  record : String := ""

/-- Canonical league record (`dao.base.BaseLeague`), restricted to the
fields read by the embedded functions. -/
structure BaseLeague where
  league_id : String
  season : ℤ
  bench_positions : List String
  data_dir : String
  offline : Bool
  save_data : Bool
  deriving Repr, DecidableEq

/-- Feature toggles of the `[Report]` section of the configuration that
`add_report_player_stats` and `add_report_team_stats` query via
`config.getboolean`. -/
structure ReportConfig where
  league_bad_boy_rankings : Bool
  league_beef_rankings : Bool
  league_covid_risk_rankings : Bool

/-- Abstract bad-boy metrics provider (`calculate.bad_boy_stats.BadBoyStats`),
embedded as its three lookup functions keyed by
(first name, last name, NFL team abbreviation, primary position). -/
structure BadBoyStats where
  get_player_bad_boy_crime : String → String → String → String → String
  get_player_bad_boy_points : String → String → String → String → ℕ
  get_player_bad_boy_num_offenders : String → String → String → String → ℕ

/-- Abstract beef metrics provider (`calculate.beef_stats.BeefStats`). -/
structure BeefStats where
  get_player_weight : String → String → String → ℚ
  get_player_tabbu : String → String → String → ℚ

/-- Abstract covid-risk metrics provider (`calculate.covid_risk.CovidRisk`),
keyed by (full name, NFL team abbreviation, primary position). -/
structure CovidRisk where
  get_player_covid_risk : String → String → String → ℕ

/-- Luck table entry: the `metrics.get("luck")` mapping yields, per team id,
a record with keys `luck` and `luck_record`. -/
structure LuckEntry where
  luck : ℚ
  luck_record : String

/-- Abstract coaching-efficiency evaluator
(`metrics.get("coaching_efficiency").execute_coaching_efficiency`). -/
structure CoachingEfficiencyEval where
  execute_coaching_efficiency :
    String → List BasePlayer → ℚ → List String → ℤ → List String → Bool → ℚ × ℚ

/-- The `metrics` dictionary passed through the enrichment functions. -/
structure Metrics where
  bad_boy_stats : BadBoyStats
  beef_stats : BeefStats
  covid_risk : CovidRisk
  coaching_efficiency : CoachingEfficiencyEval
  luck : String → LuckEntry
  records : String → String

/-- Abstract `metrics_calculator` argument: only its `decode_byte_string`
method is used by `add_report_team_stats`. -/
structure MetricsCalculator where
  decode_byte_string : String → String

/-- Embedding of `add_report_player_stats` (report_tools.py lines 532-561):
reset every enrichment field to its neutral default, then, only when the
player's selected position is not a bench position, populate the fields
of each toggled-on metric from the corresponding provider (covid risk
additionally gated to seasons since 2020). -/
def add_report_player_stats (config : ReportConfig) (season : ℤ) (metrics : Metrics)
    (player : BasePlayer) (bench_positions : List String) : BasePlayer :=
  let p0 : BasePlayer :=
    { player with
      bad_boy_crime := ""
      bad_boy_points := 0
      bad_boy_num_offenders := 0
      weight := 0
      tabbu := 0
      covid_risk := 0 }
  if player.selected_position ∉ bench_positions then
    let p1 : BasePlayer :=
      if config.league_bad_boy_rankings then
        { p0 with
          bad_boy_crime := metrics.bad_boy_stats.get_player_bad_boy_crime
            player.first_name player.last_name player.nfl_team_abbr player.primary_position
          bad_boy_points := metrics.bad_boy_stats.get_player_bad_boy_points
            player.first_name player.last_name player.nfl_team_abbr player.primary_position
          bad_boy_num_offenders := metrics.bad_boy_stats.get_player_bad_boy_num_offenders
            player.first_name player.last_name player.nfl_team_abbr player.primary_position }
      else p0
    let p2 : BasePlayer :=
      if config.league_beef_rankings then
        { p1 with
          weight := metrics.beef_stats.get_player_weight
            player.first_name player.last_name player.nfl_team_abbr
          tabbu := metrics.beef_stats.get_player_tabbu
            player.first_name player.last_name player.nfl_team_abbr }
      else p1
    let p3 : BasePlayer :=
      if config.league_covid_risk_rankings = true ∧ 2020 ≤ season then
        { p2 with
          covid_risk := metrics.covid_risk.get_player_covid_risk
            player.full_name player.nfl_team_abbr player.primary_position }
      else p2
    p3
  else p0

/-- Body of the per-player loop of the bad-boy aggregation block of
`add_report_team_stats` (report_tools.py lines 589-599): an active player
with positive bad-boy points adds its points to the team total, adds its
own multi-offender count (`DEF`) or `1` (any other position) to the team
offender count, and takes over the worst offense when its points exceed
the current worst score. -/
def bad_boy_step (bench_positions : List String) (team : BaseTeam) (p : BasePlayer) :
    BaseTeam :=
  if p.selected_position ∉ bench_positions then
    if 0 < p.bad_boy_points then
      let t1 : BaseTeam := { team with bad_boy_points := team.bad_boy_points + p.bad_boy_points }
      let t2 : BaseTeam :=
        if p.selected_position = "DEF" then
          { t1 with num_offenders := t1.num_offenders + p.bad_boy_num_offenders }
        else
          { t1 with num_offenders := t1.num_offenders + 1 }
      if t2.worst_offense_score < p.bad_boy_points then
        { t2 with
          worst_offense := some p.bad_boy_crime
          worst_offense_score := p.bad_boy_points }
      else t2
    else team
  else team

/-- Points of the roster players whose selected position is in the bench
set (the list comprehension on report_tools.py line 582). -/
def bench_points_list (bench_positions : List String) (roster : List BasePlayer) : List ℚ :=
  (roster.filter (fun p => decide (p.selected_position ∈ bench_positions))).map
    (fun p => p.points)

/-- Points of the roster players whose selected position is not in the
bench set (the list comprehension on report_tools.py line 574). -/
def active_points_list (bench_positions : List String) (roster : List BasePlayer) : List ℚ :=
  (roster.filter (fun p => decide (p.selected_position ∉ bench_positions))).map
    (fun p => p.points)

/-- Embedding of `add_report_team_stats` (report_tools.py lines 564-627).
The function returns the enriched team together with the Boolean that
records whether the non-fatal team-points discrepancy warning was
logged.  The stages follow the source order: decode the team name,
enrich every roster player, compare reported points against the
recomputed starting-lineup sum plus home-field advantage, recompute
bench points, then apply the bad-boy, beef and covid-risk aggregation
blocks under their toggles, fill `positions_filled_active`, and attach
the coaching-efficiency, luck and record values from the providers. -/
def add_report_team_stats (config : ReportConfig) (team : BaseTeam) (league : BaseLeague)
    (week_counter : ℤ) (season : ℤ) (metrics_calculator : MetricsCalculator)
    (metrics : Metrics) (dq_ce : Bool) (inactive_players : List String) :
    BaseTeam × Bool :=
  let bench_positions := league.bench_positions
  let team1 : BaseTeam :=
    { team with
      name := metrics_calculator.decode_byte_string team.name
      roster := team.roster.map
        (fun p => add_report_player_stats config season metrics p bench_positions) }
  let starting_lineup_points : ℚ :=
    round2 (active_points_list bench_positions team1.roster).sum
  let warned : Bool :=
    decide (round2 team1.points ≠ starting_lineup_points + team1.home_field_advantage)
  let team2 : BaseTeam :=
    { team1 with bench_points := round2 (bench_points_list bench_positions team1.roster).sum }
  let team3 : BaseTeam :=
    if config.league_bad_boy_rankings then
      team2.roster.foldl (bad_boy_step bench_positions)
        { team2 with
          bad_boy_points := 0
          worst_offense := none
          num_offenders := 0
          worst_offense_score := 0 }
    else team2
  let team4 : BaseTeam :=
    if config.league_beef_rankings then
      { team3 with
        total_weight := some
          (((team3.roster.filter (fun p => decide (p.selected_position ∉ bench_positions))).map
            (fun p => p.weight)).sum)
        tabbu := some
          (((team3.roster.filter (fun p => decide (p.selected_position ∉ bench_positions))).map
            (fun p => p.tabbu)).sum) }
    else team3
  let team5 : BaseTeam :=
    if config.league_covid_risk_rankings = true ∧ 2020 ≤ season then
      { team4 with
        total_covid_risk := some
          (((team4.roster.filter (fun p => decide (p.selected_position ∉ bench_positions))).map
            (fun p => p.covid_risk)).sum) }
    else team4
  let team6 : BaseTeam :=
    { team5 with
      positions_filled_active :=
        (team5.roster.filter (fun p => decide (p.selected_position ∉ bench_positions))).map
          (fun p => p.selected_position) }
  let ce : ℚ × ℚ :=
    metrics.coaching_efficiency.execute_coaching_efficiency team6.name team6.roster
      team6.points team6.positions_filled_active week_counter inactive_players dq_ce
  let team7 : BaseTeam := { team6 with coaching_efficiency := ce.1, optimal_points := ce.2 }
  let team8 : BaseTeam :=
    { team7 with
      luck := (metrics.luck team7.team_id).luck
      weekly_overall_record := (metrics.luck team7.team_id).luck_record
      record := metrics.records team7.team_id }
  (team8, warned)

/-- Outcome of `league_data_factory`: a mapped league, the implicit
Python `None` return (no branch taken inside the supported-platform
block), or a fatal abort via `sys.exit`. -/
inductive FactoryResult where
  | league (l : BaseLeague)
  | none
  | fatal (msg : String)
  deriving Repr, DecidableEq

/-- Error message logged by `league_data_factory` for an unsupported
platform (report_tools.py lines 525-528), before `sys.exit`. -/
def unsupported_platform_message (platform : String) : String :=
  "Generating fantasy football reports for the \"" ++ platform ++
    "\" fantasy football platform is not currently supported. " ++
    "Please change your settings in config.ini and try again."

/-- Embedding of `league_data_factory` (report_tools.py lines 461-529).
The module-level `supported_platforms` list is discovered dynamically in
the source (`pkgutil.iter_modules` over `dao/platforms`), so it is a
parameter here.  Each platform adapter's `map_data_to_base` result is
abstracted to a `BaseLeague` parameter, since the adapters live outside
the three source files.  A platform inside `supported_platforms` that
matches none of the four name branches falls off the end of the inner
conditional, which in Python returns `None`. -/
def league_data_factory (supported_platforms : List String) (platform : String)
    (yahoo_league fleaflicker_league sleeper_league espn_league : BaseLeague) :
    FactoryResult :=
  if platform ∈ supported_platforms then
    if platform = "yahoo" then FactoryResult.league yahoo_league
    else if platform = "fleaflicker" then FactoryResult.league fleaflicker_league
    else if platform = "sleeper" then FactoryResult.league sleeper_league
    else if platform = "espn" then FactoryResult.league espn_league
    else FactoryResult.none
  else FactoryResult.fatal (unsupported_platform_message platform)

/-- Requested week value, as it reaches `user_week_input_validation`:
the `"default"` sentinel, an integer (or an integer-valued string), or a
string that `int()` cannot parse. -/
inductive WeekArg where
  | default
  | num (n : ℤ)
  | invalid (s : String)
  deriving Repr, DecidableEq

/-- Message of the `ValueError` raised (and re-raised) inside the
current-season branch of `user_week_input_validation`. -/
def invalid_week_message : String :=
  "You must select either \"default\" or an integer from 1 to 18 for the chosen week."

/-- Message of the uncaught `ValueError` raised by the final
`int(week_for_report)` conversion when the requested week is not an
integer literal. -/
def int_parse_error (s : String) : String :=
  "ValueError: invalid literal for int() with base 10: " ++ s

/-- Embedding of `user_week_input_validation` (report_tools.py lines
386-435).  The module-level globals `current_year` and `current_month`
(taken from `datetime.today()` at import time) are parameters, as are the
`week` argument (`Option` because Python tests its truthiness), the
configured `week_for_report`, the retrieved current week, the season and
the answer the user would give to whichever confirmation prompt fires.
Raised `ValueError`s become `Except.error` carrying the message. -/
def user_week_input_validation (current_year current_month : ℤ) (config_week : WeekArg)
    (week : Option WeekArg) (retrieved_current_week : ℤ) (season : ℤ)
    (answer : String) : Except String ℤ :=
  let week_for_report : WeekArg :=
    match week with
    | some w => w
    | Option.none => config_week
  if current_year = season ∨ (current_year = season + 1 ∧ current_month < 9) then
    match week_for_report with
    | WeekArg.default =>
        if 0 < retrieved_current_week - 1 then
          Except.ok (retrieved_current_week - 1)
        else
          if answer = "y" then Except.ok retrieved_current_week
          else Except.error invalid_week_message
    | WeekArg.num n =>
        if 0 < n ∧ n ≤ NFL_SEASON_LENGTH then
          if 0 < n ∧ n ≤ retrieved_current_week - 1 then
            Except.ok n
          else
            if answer = "y" then Except.ok n
            else Except.error invalid_week_message
        else Except.error invalid_week_message
    | WeekArg.invalid _ => Except.error invalid_week_message
  else
    match week_for_report with
    | WeekArg.default => Except.error (int_parse_error "default")
    | WeekArg.num n => Except.ok n
    | WeekArg.invalid s => Except.error (int_parse_error s)

/-- Error message logged by `get_player_game_time_statuses` before
`sys.exit` when the offline fixture file is absent (report_tools.py
lines 657-659). -/
def missing_fixture_message (file_path : String) : String :=
  "FILE " ++ file_path ++
    " DOES NOT EXIST. CANNOT LOAD DATA LOCALLY WITHOUT HAVING PREVIOUSLY SAVED DATA!"

/-- Cache path of the player-status fixture for a week
(report_tools.py lines 631-633). -/
def player_status_file_path (week : ℤ) (league : BaseLeague) : String :=
  league.data_dir ++ "/" ++ toString league.season ++ "/" ++ league.league_id ++
    "/week_" ++ toString week ++ "/week_" ++ toString week ++ "-player_status_data.html"

/-- Embedding of `get_player_game_time_statuses` (report_tools.py lines
630-669).  File-system reads are abstracted as a partial map from paths
to contents and the live HTTP response as a string parameter; the
`save_data` write-back is pure I/O and does not affect the returned
document.  In offline mode a missing fixture file becomes a fatal
`Except.error` (the source logs and calls `sys.exit`). -/
def get_player_game_time_statuses (week : ℤ) (league : BaseLeague)
    (file_contents : String → Option String) (response_text : String) :
    Except String String :=
  let file_path := player_status_file_path week league
  if league.offline = false then
    Except.ok response_text
  else
    match file_contents file_path with
    | some contents => Except.ok contents
    | Option.none => Except.error (missing_fixture_message file_path)

/-- Roster after the per-player enrichment loop of
`add_report_team_stats` (report_tools.py lines 570-571). -/
def enriched_roster (config : ReportConfig) (season : ℤ) (metrics : Metrics)
    (bench_positions : List String) (roster : List BasePlayer) : List BasePlayer :=
  roster.map (fun p => add_report_player_stats config season metrics p bench_positions)

/-! Concrete sample data used by witnesses and counterexamples. -/

/-- Configuration with every report feature toggle enabled. -/
def cfg_all_on : ReportConfig :=
  { league_bad_boy_rankings := true
    league_beef_rankings := true
    league_covid_risk_rankings := true }

/-- Configuration with only bad-boy rankings enabled. -/
def cfg_bad_boy_only : ReportConfig :=
  { league_bad_boy_rankings := true
    league_beef_rankings := false
    league_covid_risk_rankings := false }

/-- Metrics calculator whose byte-string decoding is the identity. -/
def mc_id : MetricsCalculator := ⟨fun s => s⟩

/-- Coaching-efficiency evaluator returning a fixed pair. -/
def sample_ce : CoachingEfficiencyEval := ⟨fun _ _ _ _ _ _ _ => (9 / 10, 100)⟩

/-- Bad-boy provider distinguishing two players by first name: "Alpha"
has 5 points, anyone else 12; every lookup reports 3 offenders. -/
def scenario_bad_boy_stats : BadBoyStats :=
  { get_player_bad_boy_crime := fun fn _ _ _ => if fn = "Alpha" then "Theft" else "DUI"
    get_player_bad_boy_points := fun fn _ _ _ => if fn = "Alpha" then 5 else 12
    get_player_bad_boy_num_offenders := fun _ _ _ _ => 3 }

/-- Bad-boy provider reporting a recorded crime with 0 points but 3
offenders for every identity. -/
def zero_point_bad_boy_stats : BadBoyStats :=
  { get_player_bad_boy_crime := fun _ _ _ _ => "Assault"
    get_player_bad_boy_points := fun _ _ _ _ => 0
    get_player_bad_boy_num_offenders := fun _ _ _ _ => 3 }

/-- Constant beef provider. -/
def sample_beef_stats : BeefStats :=
  { get_player_weight := fun _ _ _ => 300
    get_player_tabbu := fun _ _ _ => 3 / 2 }

/-- Constant covid-risk provider returning a nonzero risk. -/
def sample_covid_risk : CovidRisk := ⟨fun _ _ _ => 5⟩

/-- Metrics bundle built from the scenario bad-boy provider. -/
def scenario_metrics : Metrics :=
  { bad_boy_stats := scenario_bad_boy_stats
    beef_stats := sample_beef_stats
    covid_risk := sample_covid_risk
    coaching_efficiency := sample_ce
    luck := fun _ => ⟨1 / 2, "3-2"⟩
    records := fun _ => "5-4" }

/-- Metrics bundle built from the zero-point bad-boy provider. -/
def zero_point_metrics : Metrics :=
  { bad_boy_stats := zero_point_bad_boy_stats
    beef_stats := sample_beef_stats
    covid_risk := sample_covid_risk
    coaching_efficiency := sample_ce
    luck := fun _ => ⟨1 / 2, "3-2"⟩
    records := fun _ => "5-4" }

/-- League used by the sample teams: bench positions `BN` and `IR`,
offline mode enabled. -/
def sample_league : BaseLeague :=
  { league_id := "123456"
    season := 2021
    bench_positions := ["BN", "IR"]
    data_dir := "output/data"
    offline := true
    save_data := false }

/-- Benched sample player. -/
def bench_player : BasePlayer :=
  { first_name := "Ben"
    last_name := "Cher"
    full_name := "Ben Cher"
    nfl_team_abbr := "KC"
    primary_position := "RB"
    selected_position := "BN"
    points := 30 }

/-- Active sample player "Alpha" (a running back). -/
def alpha_player : BasePlayer :=
  { first_name := "Alpha"
    last_name := "Back"
    full_name := "Alpha Back"
    nfl_team_abbr := "SF"
    primary_position := "RB"
    selected_position := "RB"
    points := 25 / 2 }

/-- Active sample defense slot. -/
def delta_defense : BasePlayer :=
  { first_name := "Delta"
    last_name := "Defense"
    full_name := "Delta Defense"
    nfl_team_abbr := "CHI"
    primary_position := "DEF"
    selected_position := "DEF"
    points := 8 }

/-- Team whose active lineup is "Alpha" plus a defense, with one benched
player; reported points match the starting lineup sum. -/
def scenario_team : BaseTeam :=
  { team_id := "1"
    name := "Scenario Team"
    roster := [alpha_player, delta_defense, bench_player]
    points := 41 / 2
    home_field_advantage := 0 }

/-- Team whose only roster slot is an active defense. -/
def defense_only_team : BaseTeam :=
  { team_id := "2"
    name := "Defense Only"
    roster := [delta_defense]
    points := 8
    home_field_advantage := 0 }

/-! Helper lemmas: player enrichment never changes identity, lineup slot
or fantasy points of a player. -/

theorem add_report_player_stats_selected_position (config : ReportConfig) (season : ℤ)
    (metrics : Metrics) (player : BasePlayer) (bench_positions : List String) :
    (add_report_player_stats config season metrics player bench_positions).selected_position
      = player.selected_position := by
  simp only [add_report_player_stats]
  split
  · split <;> split <;> split <;> rfl
  · rfl

theorem add_report_player_stats_points (config : ReportConfig) (season : ℤ)
    (metrics : Metrics) (player : BasePlayer) (bench_positions : List String) :
    (add_report_player_stats config season metrics player bench_positions).points
      = player.points := by
  simp only [add_report_player_stats]
  split
  · split <;> split <;> split <;> rfl
  · rfl

/-! Helper lemmas about `bad_boy_step` and its left fold: fields outside
the four bad-boy aggregates are untouched, and the four aggregates are
characterised. -/

theorem bad_boy_step_roster (b : List String) (t : BaseTeam) (p : BasePlayer) :
    (bad_boy_step b t p).roster = t.roster := by
  simp only [bad_boy_step]
  repeat' split
  all_goals rfl

theorem bad_boy_step_points (b : List String) (t : BaseTeam) (p : BasePlayer) :
    (bad_boy_step b t p).points = t.points := by
  simp only [bad_boy_step]
  repeat' split
  all_goals rfl

theorem bad_boy_step_bench_points (b : List String) (t : BaseTeam) (p : BasePlayer) :
    (bad_boy_step b t p).bench_points = t.bench_points := by
  simp only [bad_boy_step]
  repeat' split
  all_goals rfl

theorem bad_boy_step_total_covid_risk (b : List String) (t : BaseTeam) (p : BasePlayer) :
    (bad_boy_step b t p).total_covid_risk = t.total_covid_risk := by
  simp only [bad_boy_step]
  repeat' split
  all_goals rfl

theorem bad_boy_step_bad_boy_points (b : List String) (t : BaseTeam) (p : BasePlayer) :
    (bad_boy_step b t p).bad_boy_points
      = t.bad_boy_points + (if p.selected_position ∉ b then p.bad_boy_points else 0) := by
  simp only [bad_boy_step]
  repeat' split
  all_goals simp_all

theorem bad_boy_step_num_offenders (b : List String) (t : BaseTeam) (p : BasePlayer) :
    (bad_boy_step b t p).num_offenders
      = t.num_offenders +
        (if p.selected_position ∉ b then
          (if 0 < p.bad_boy_points then
            (if p.selected_position = "DEF" then p.bad_boy_num_offenders else 1)
          else 0)
        else 0) := by
  simp only [bad_boy_step]
  repeat' split
  all_goals simp_all

theorem bad_boy_step_worst_offense_score (b : List String) (t : BaseTeam) (p : BasePlayer) :
    (bad_boy_step b t p).worst_offense_score
      = (if p.selected_position ∉ b then max t.worst_offense_score p.bad_boy_points
         else t.worst_offense_score) := by
  simp only [bad_boy_step]
  repeat' split
  all_goals simp_all
  all_goals omega

theorem bad_boy_step_worst_offense (b : List String) (t : BaseTeam) (p : BasePlayer) :
    ((bad_boy_step b t p).worst_offense = t.worst_offense ∧
      (bad_boy_step b t p).worst_offense_score = t.worst_offense_score)
    ∨ (p.selected_position ∉ b ∧ 0 < p.bad_boy_points ∧
        (bad_boy_step b t p).worst_offense = some p.bad_boy_crime ∧
        (bad_boy_step b t p).worst_offense_score = p.bad_boy_points) := by
  simp only [bad_boy_step]
  repeat' split
  all_goals simp_all

theorem foldl_bad_boy_step_roster (b : List String) (l : List BasePlayer) (t : BaseTeam) :
    (l.foldl (bad_boy_step b) t).roster = t.roster := by
  induction l generalizing t with
  | nil => rfl
  | cons p l ih => simp only [List.foldl_cons, ih, bad_boy_step_roster]

theorem foldl_bad_boy_step_points (b : List String) (l : List BasePlayer) (t : BaseTeam) :
    (l.foldl (bad_boy_step b) t).points = t.points := by
  induction l generalizing t with
  | nil => rfl
  | cons p l ih => simp only [List.foldl_cons, ih, bad_boy_step_points]

theorem foldl_bad_boy_step_bench_points (b : List String) (l : List BasePlayer) (t : BaseTeam) :
    (l.foldl (bad_boy_step b) t).bench_points = t.bench_points := by
  induction l generalizing t with
  | nil => rfl
  | cons p l ih => simp only [List.foldl_cons, ih, bad_boy_step_bench_points]

theorem foldl_bad_boy_step_total_covid_risk (b : List String) (l : List BasePlayer)
    (t : BaseTeam) :
    (l.foldl (bad_boy_step b) t).total_covid_risk = t.total_covid_risk := by
  induction l generalizing t with
  | nil => rfl
  | cons p l ih => simp only [List.foldl_cons, ih, bad_boy_step_total_covid_risk]

theorem foldl_bad_boy_step_bad_boy_points (b : List String) (l : List BasePlayer)
    (t : BaseTeam) :
    (l.foldl (bad_boy_step b) t).bad_boy_points
      = t.bad_boy_points +
        ((l.filter (fun p => decide (p.selected_position ∉ b))).map
          (fun p => p.bad_boy_points)).sum := by
  induction l generalizing t with
  | nil => simp
  | cons p l ih =>
    simp only [List.foldl_cons, List.filter_cons, ih, bad_boy_step_bad_boy_points]
    by_cases h : p.selected_position ∉ b
    · simp [h]; omega
    · simp [h]

theorem foldl_bad_boy_step_num_offenders (b : List String) (l : List BasePlayer)
    (t : BaseTeam) :
    (l.foldl (bad_boy_step b) t).num_offenders
      = t.num_offenders +
        ((l.filter (fun p => decide (p.selected_position ∉ b))).map
          (fun p =>
            if 0 < p.bad_boy_points then
              (if p.selected_position = "DEF" then p.bad_boy_num_offenders else 1)
            else 0)).sum := by
  induction l generalizing t with
  | nil => simp
  | cons p l ih =>
    simp only [List.foldl_cons, List.filter_cons, ih, bad_boy_step_num_offenders]
    by_cases h : p.selected_position ∉ b
    · simp [h]; omega
    · simp [h]

theorem foldl_bad_boy_step_worst_offense_score (b : List String) (l : List BasePlayer)
    (t : BaseTeam) :
    (l.foldl (bad_boy_step b) t).worst_offense_score
      = ((l.filter (fun p => decide (p.selected_position ∉ b))).map
          (fun p => p.bad_boy_points)).foldl max t.worst_offense_score := by
  induction l generalizing t with
  | nil => rfl
  | cons p l ih =>
    simp only [List.foldl_cons, List.filter_cons, ih, bad_boy_step_worst_offense_score]
    by_cases h : p.selected_position ∉ b
    · simp [h]
    · simp [h]

theorem foldl_bad_boy_step_worst_offense (b : List String) (l : List BasePlayer)
    (t : BaseTeam) :
    ((l.foldl (bad_boy_step b) t).worst_offense = t.worst_offense ∧
      (l.foldl (bad_boy_step b) t).worst_offense_score = t.worst_offense_score)
    ∨ ∃ p, p ∈ l ∧ p.selected_position ∉ b ∧ 0 < p.bad_boy_points ∧
        (l.foldl (bad_boy_step b) t).worst_offense = some p.bad_boy_crime ∧
        (l.foldl (bad_boy_step b) t).worst_offense_score = p.bad_boy_points := by
  induction l generalizing t with
  | nil => exact Or.inl ⟨rfl, rfl⟩
  | cons p l ih =>
    simp only [List.foldl_cons]
    rcases ih (bad_boy_step b t p) with ⟨h1, h2⟩ | ⟨q, hq, hact, hpos, h1, h2⟩
    · rcases bad_boy_step_worst_offense b t p with ⟨g1, g2⟩ | ⟨gact, gpos, g1, g2⟩
      · exact Or.inl ⟨h1.trans g1, h2.trans g2⟩
      · exact Or.inr ⟨p, List.mem_cons_self p l, gact, gpos, h1.trans g1, h2.trans g2⟩
    · exact Or.inr ⟨q, List.mem_cons_of_mem p hq, hact, hpos, h1, h2⟩

/-! Helper lemmas bridging sums over the enriched roster to sums over the
original roster: enrichment changes neither lineup slots nor points. -/

theorem filter_map_points_enriched (config : ReportConfig) (season : ℤ) (metrics : Metrics)
    (bench_positions : List String) (cond : String → Bool) (l : List BasePlayer) :
    (((l.map (fun p => add_report_player_stats config season metrics p bench_positions)).filter
        (fun p => cond p.selected_position)).map (fun p => p.points))
      = ((l.filter (fun p => cond p.selected_position)).map (fun p => p.points)) := by
  induction l with
  | nil => rfl
  | cons p l ih =>
    simp only [List.map_cons, List.filter_cons, add_report_player_stats_selected_position]
    cases h : cond p.selected_position
    · simpa [h] using ih
    · simp [h, ih, add_report_player_stats_points]

theorem bench_points_list_enriched (config : ReportConfig) (season : ℤ) (metrics : Metrics)
    (bench_positions : List String) (l : List BasePlayer) :
    bench_points_list bench_positions
        (l.map (fun p => add_report_player_stats config season metrics p bench_positions))
      = bench_points_list bench_positions l :=
  filter_map_points_enriched config season metrics bench_positions
    (fun s => decide (s ∈ bench_positions)) l

theorem active_points_list_enriched (config : ReportConfig) (season : ℤ) (metrics : Metrics)
    (bench_positions : List String) (l : List BasePlayer) :
    active_points_list bench_positions
        (l.map (fun p => add_report_player_stats config season metrics p bench_positions))
      = active_points_list bench_positions l :=
  filter_map_points_enriched config season metrics bench_positions
    (fun s => decide (s ∉ bench_positions)) l

theorem add_report_team_stats_points (config : ReportConfig) (team : BaseTeam)
    (league : BaseLeague) (week_counter : ℤ) (season : ℤ)
    (metrics_calculator : MetricsCalculator) (metrics : Metrics) (dq_ce : Bool)
    (inactive_players : List String) :
    (add_report_team_stats config team league week_counter season metrics_calculator
        metrics dq_ce inactive_players).1.points = team.points := by
  simp only [add_report_team_stats]
  repeat' split
  all_goals simp [foldl_bad_boy_step_points]

theorem add_report_team_stats_roster (config : ReportConfig) (team : BaseTeam)
    (league : BaseLeague) (week_counter : ℤ) (season : ℤ)
    (metrics_calculator : MetricsCalculator) (metrics : Metrics) (dq_ce : Bool)
    (inactive_players : List String) :
    (add_report_team_stats config team league week_counter season metrics_calculator
        metrics dq_ce inactive_players).1.roster
      = team.roster.map
          (fun p => add_report_player_stats config season metrics p league.bench_positions) := by
  simp only [add_report_team_stats]
  repeat' split
  all_goals simp [foldl_bad_boy_step_roster]

theorem add_report_team_stats_bench_points (config : ReportConfig) (team : BaseTeam)
    (league : BaseLeague) (week_counter : ℤ) (season : ℤ)
    (metrics_calculator : MetricsCalculator) (metrics : Metrics) (dq_ce : Bool)
    (inactive_players : List String) :
    (add_report_team_stats config team league week_counter season metrics_calculator
        metrics dq_ce inactive_players).1.bench_points
      = round2 (bench_points_list league.bench_positions team.roster).sum := by
  simp only [add_report_team_stats]
  repeat' split
  all_goals simp [foldl_bad_boy_step_bench_points, bench_points_list_enriched]

theorem add_report_team_stats_warned (config : ReportConfig) (team : BaseTeam)
    (league : BaseLeague) (week_counter : ℤ) (season : ℤ)
    (metrics_calculator : MetricsCalculator) (metrics : Metrics) (dq_ce : Bool)
    (inactive_players : List String) :
    (add_report_team_stats config team league week_counter season metrics_calculator
        metrics dq_ce inactive_players).2
      = decide (round2 team.points
          ≠ round2 (active_points_list league.bench_positions team.roster).sum
            + team.home_field_advantage) := by
  simp only [add_report_team_stats]
  simp [active_points_list_enriched]

theorem add_report_team_stats_total_covid_risk_skipped (config : ReportConfig)
    (team : BaseTeam) (league : BaseLeague) (week_counter : ℤ) (season : ℤ)
    (metrics_calculator : MetricsCalculator) (metrics : Metrics) (dq_ce : Bool)
    (inactive_players : List String)
    (h : ¬(config.league_covid_risk_rankings = true ∧ 2020 ≤ season)) :
    (add_report_team_stats config team league week_counter season metrics_calculator
        metrics dq_ce inactive_players).1.total_covid_risk = team.total_covid_risk := by
  simp only [add_report_team_stats]
  repeat' split
  all_goals simp_all [foldl_bad_boy_step_total_covid_risk]

theorem foldl_bad_boy_step_worst_offense_exists (b : List String) (l : List BasePlayer)
    (t : BaseTeam) (h1 : t.worst_offense_score = 0)
    (hpos : 0 < (l.foldl (bad_boy_step b) t).worst_offense_score) :
    ∃ p, p ∈ l ∧ p.selected_position ∉ b ∧ 0 < p.bad_boy_points ∧
      (l.foldl (bad_boy_step b) t).worst_offense = some p.bad_boy_crime ∧
      (l.foldl (bad_boy_step b) t).worst_offense_score = p.bad_boy_points := by
  rcases foldl_bad_boy_step_worst_offense b l t with ⟨g1, g2⟩ | hx
  · rw [g2, h1] at hpos
    exact absurd hpos (by simp)
  · exact hx

theorem add_report_team_stats_worst_pair (config : ReportConfig) (team : BaseTeam)
    (league : BaseLeague) (week_counter : ℤ) (season : ℤ)
    (metrics_calculator : MetricsCalculator) (metrics : Metrics) (dq_ce : Bool)
    (inactive_players : List String) (h : config.league_bad_boy_rankings = true) :
    ∃ t0 : BaseTeam, t0.worst_offense_score = 0
      ∧ (add_report_team_stats config team league week_counter season metrics_calculator
          metrics dq_ce inactive_players).1.worst_offense
        = ((enriched_roster config season metrics league.bench_positions team.roster).foldl
            (bad_boy_step league.bench_positions) t0).worst_offense
      ∧ (add_report_team_stats config team league week_counter season metrics_calculator
          metrics dq_ce inactive_players).1.worst_offense_score
        = ((enriched_roster config season metrics league.bench_positions team.roster).foldl
            (bad_boy_step league.bench_positions) t0).worst_offense_score := by
  simp only [add_report_team_stats, enriched_roster, h, if_true]
  repeat' split
  all_goals exact ⟨_, rfl, rfl, rfl⟩

/-! Claim theorems. -/

/-- C1: for every team, after `add_report_team_stats` the team's
`bench_points` equals the sum of the points of the players on its roster
whose selected position is in the league's bench positions, rounded to 2
decimal places. -/
theorem claim_bench_points_is_rounded_bench_sum (config : ReportConfig) (team : BaseTeam)
    (league : BaseLeague) (week_counter : ℤ) (season : ℤ)
    (metrics_calculator : MetricsCalculator) (metrics : Metrics) (dq_ce : Bool)
    (inactive_players : List String) :
    (add_report_team_stats config team league week_counter season metrics_calculator
        metrics dq_ce inactive_players).1.bench_points
      = round2 (((team.roster.filter
            (fun p => decide (p.selected_position ∈ league.bench_positions))).map
            (fun p => p.points)).sum) :=
  add_report_team_stats_bench_points config team league week_counter season
    metrics_calculator metrics dq_ce inactive_players

/-- C2: a player whose selected position is in the bench set keeps every
enrichment field at its neutral default after `add_report_player_stats`,
whatever the metrics providers would return and whatever toggles are
enabled. -/
theorem claim_bench_player_keeps_neutral_defaults (config : ReportConfig) (season : ℤ)
    (metrics : Metrics) (player : BasePlayer) (bench_positions : List String)
    (h : player.selected_position ∈ bench_positions) :
    (add_report_player_stats config season metrics player bench_positions).bad_boy_crime = ""
    ∧ (add_report_player_stats config season metrics player bench_positions).bad_boy_points = 0
    ∧ (add_report_player_stats config season metrics player
        bench_positions).bad_boy_num_offenders = 0
    ∧ (add_report_player_stats config season metrics player bench_positions).weight = 0
    ∧ (add_report_player_stats config season metrics player bench_positions).tabbu = 0
    ∧ (add_report_player_stats config season metrics player bench_positions).covid_risk = 0 := by
  simp only [add_report_player_stats]
  rw [if_neg (not_not_intro h)]
  exact ⟨rfl, rfl, rfl, rfl, rfl, rfl⟩

/-- Witness for C2 at a concrete benched player with every toggle on and
providers that would return nonzero values. -/
theorem claim_bench_player_keeps_neutral_defaults_witness :
    bench_player.selected_position ∈ ["BN", "IR"]
    ∧ ((add_report_player_stats cfg_all_on 2021 scenario_metrics bench_player
          ["BN", "IR"]).bad_boy_crime = ""
      ∧ (add_report_player_stats cfg_all_on 2021 scenario_metrics bench_player
          ["BN", "IR"]).bad_boy_points = 0
      ∧ (add_report_player_stats cfg_all_on 2021 scenario_metrics bench_player
          ["BN", "IR"]).bad_boy_num_offenders = 0
      ∧ (add_report_player_stats cfg_all_on 2021 scenario_metrics bench_player
          ["BN", "IR"]).weight = 0
      ∧ (add_report_player_stats cfg_all_on 2021 scenario_metrics bench_player
          ["BN", "IR"]).tabbu = 0
      ∧ (add_report_player_stats cfg_all_on 2021 scenario_metrics bench_player
          ["BN", "IR"]).covid_risk = 0) :=
  ⟨by decide,
    claim_bench_player_keeps_neutral_defaults cfg_all_on 2021 scenario_metrics bench_player
      ["BN", "IR"] (by decide)⟩

/-- C4: `add_report_team_stats` logs the discrepancy warning exactly when
the reported team points and the recomputed starting-lineup sum plus
home-field advantage differ after rounding to 2 decimal places, and it
always returns the team with its reported points unchanged. -/
theorem claim_discrepancy_warning_iff (config : ReportConfig) (team : BaseTeam)
    (league : BaseLeague) (week_counter : ℤ) (season : ℤ)
    (metrics_calculator : MetricsCalculator) (metrics : Metrics) (dq_ce : Bool)
    (inactive_players : List String) :
    ((add_report_team_stats config team league week_counter season metrics_calculator
        metrics dq_ce inactive_players).2 = true
      ↔ round2 team.points
          ≠ round2 (((team.roster.filter
              (fun p => decide (p.selected_position ∉ league.bench_positions))).map
              (fun p => p.points)).sum) + team.home_field_advantage)
    ∧ (add_report_team_stats config team league week_counter season metrics_calculator
        metrics dq_ce inactive_players).1.points = team.points := by
  constructor
  · rw [add_report_team_stats_warned]
    exact decide_eq_true_iff
  · exact add_report_team_stats_points config team league week_counter season
      metrics_calculator metrics dq_ce inactive_players

/-- C7: with the covid-risk gate not met because the season is before
2020, `add_report_player_stats` leaves the player's covid risk at its
neutral default (even when the toggle is on) and `add_report_team_stats`
never populates the team's total covid risk. -/
theorem claim_covid_gate_requires_2020 (config : ReportConfig) (team : BaseTeam)
    (league : BaseLeague) (week_counter : ℤ) (season : ℤ)
    (metrics_calculator : MetricsCalculator) (metrics : Metrics) (dq_ce : Bool)
    (inactive_players : List String) (player : BasePlayer) (bench_positions : List String)
    (h : season < 2020) (ht : team.total_covid_risk = Option.none) :
    (add_report_player_stats config season metrics player bench_positions).covid_risk = 0
    ∧ (add_report_team_stats config team league week_counter season metrics_calculator
        metrics dq_ce inactive_players).1.total_covid_risk = Option.none := by
  constructor
  · simp only [add_report_player_stats]
    repeat' split
    all_goals simp_all
    all_goals omega
  · rw [add_report_team_stats_total_covid_risk_skipped config team league week_counter season
      metrics_calculator metrics dq_ce inactive_players (by omega), ht]

/-- Witness for C7: season 2019, every toggle on, providers returning
nonzero covid risk. -/
theorem claim_covid_gate_requires_2020_witness :
    (2019 : ℤ) < 2020
    ∧ scenario_team.total_covid_risk = Option.none
    ∧ ((add_report_player_stats cfg_all_on 2019 scenario_metrics alpha_player
          ["BN", "IR"]).covid_risk = 0
      ∧ (add_report_team_stats cfg_all_on scenario_team sample_league 1 2019 mc_id
          scenario_metrics false []).1.total_covid_risk = Option.none) :=
  ⟨by decide, rfl,
    claim_covid_gate_requires_2020 cfg_all_on scenario_team sample_league 1 2019 mc_id
      scenario_metrics false [] alpha_player ["BN", "IR"] (by decide) rfl⟩

/-- Counterexample to C3 as stated: an active `DEF` slot whose provider
reports 0 bad-boy points but 3 offenders contributes nothing to the
team's offender count in the code (the whole accumulation is guarded by
`bad_boy_points > 0`), while the claim's per-player rule, which applies
the positivity condition only to non-`DEF` positions, would count its 3
offenders. -/
theorem claim_bad_boy_team_aggregates_counterexample :
    (add_report_team_stats cfg_bad_boy_only defense_only_team sample_league 1 2021 mc_id
        zero_point_metrics false []).1.num_offenders
      ≠ (((enriched_roster cfg_bad_boy_only 2021 zero_point_metrics ["BN", "IR"]
            defense_only_team.roster).filter
            (fun p => decide (p.selected_position ∉ ["BN", "IR"]))).map
          (fun p =>
            if p.selected_position = "DEF" then p.bad_boy_num_offenders
            else if 0 < p.bad_boy_points then 1 else 0)).sum := by
  decide

/-- C3 (amended): when bad-boy rankings are enabled, after
`add_report_team_stats` the team's bad-boy points equal the sum of the
active players' bad-boy points; the offender count accumulates, per
active player with positive bad-boy points, that player's own offender
count for a `DEF` slot and exactly 1 for any other position (a `DEF`
slot with zero bad-boy points contributes nothing); the worst offense
score is the highest individual active bad-boy point value; and when
that score is positive it is witnessed by an active player whose crime
description is recorded as the worst offense. -/
theorem claim_bad_boy_team_aggregates (config : ReportConfig) (team : BaseTeam)
    (league : BaseLeague) (week_counter : ℤ) (season : ℤ)
    (metrics_calculator : MetricsCalculator) (metrics : Metrics) (dq_ce : Bool)
    (inactive_players : List String) (h : config.league_bad_boy_rankings = true) :
    (add_report_team_stats config team league week_counter season metrics_calculator
        metrics dq_ce inactive_players).1.bad_boy_points
      = (((enriched_roster config season metrics league.bench_positions team.roster).filter
          (fun p => decide (p.selected_position ∉ league.bench_positions))).map
          (fun p => p.bad_boy_points)).sum
    ∧ (add_report_team_stats config team league week_counter season metrics_calculator
        metrics dq_ce inactive_players).1.num_offenders
      = (((enriched_roster config season metrics league.bench_positions team.roster).filter
          (fun p => decide (p.selected_position ∉ league.bench_positions))).map
          (fun p =>
            if 0 < p.bad_boy_points then
              (if p.selected_position = "DEF" then p.bad_boy_num_offenders else 1)
            else 0)).sum
    ∧ (add_report_team_stats config team league week_counter season metrics_calculator
        metrics dq_ce inactive_players).1.worst_offense_score
      = (((enriched_roster config season metrics league.bench_positions team.roster).filter
          (fun p => decide (p.selected_position ∉ league.bench_positions))).map
          (fun p => p.bad_boy_points)).foldl max 0
    ∧ (0 < (add_report_team_stats config team league week_counter season metrics_calculator
          metrics dq_ce inactive_players).1.worst_offense_score →
        ∃ p, p ∈ enriched_roster config season metrics league.bench_positions team.roster
          ∧ p.selected_position ∉ league.bench_positions
          ∧ 0 < p.bad_boy_points
          ∧ (add_report_team_stats config team league week_counter season metrics_calculator
              metrics dq_ce inactive_players).1.worst_offense = some p.bad_boy_crime
          ∧ (add_report_team_stats config team league week_counter season metrics_calculator
              metrics dq_ce inactive_players).1.worst_offense_score = p.bad_boy_points) := by
  refine ⟨?_, ?_, ?_, ?_⟩
  · simp only [add_report_team_stats, enriched_roster, h, if_true]
    repeat' split
    all_goals simp [foldl_bad_boy_step_bad_boy_points]
  · simp only [add_report_team_stats, enriched_roster, h, if_true]
    repeat' split
    all_goals simp [foldl_bad_boy_step_num_offenders]
  · simp only [add_report_team_stats, enriched_roster, h, if_true]
    repeat' split
    all_goals simp [foldl_bad_boy_step_worst_offense_score]
  · intro hpos
    obtain ⟨t0, h0, e1, e2⟩ :=
      add_report_team_stats_worst_pair config team league week_counter season
        metrics_calculator metrics dq_ce inactive_players h
    rw [e2] at hpos
    obtain ⟨p, hp, hact, hbbp, g1, g2⟩ :=
      foldl_bad_boy_step_worst_offense_exists league.bench_positions
        (enriched_roster config season metrics league.bench_positions team.roster) t0 h0 hpos
    exact ⟨p, hp, hact, hbbp, e1.trans g1, e2.trans g2⟩

/-- Witness for C3 (amended), instantiating the claim's own scenario:
active players with bad-boy points 5 and 12, the latter a `DEF` slot
with 3 offenders, give team totals 17, 4 and worst score 12. -/
theorem claim_bad_boy_team_aggregates_witness :
    cfg_bad_boy_only.league_bad_boy_rankings = true
    ∧ (add_report_team_stats cfg_bad_boy_only scenario_team sample_league 1 2021 mc_id
        scenario_metrics false []).1.bad_boy_points = 17
    ∧ (add_report_team_stats cfg_bad_boy_only scenario_team sample_league 1 2021 mc_id
        scenario_metrics false []).1.num_offenders = 4
    ∧ (add_report_team_stats cfg_bad_boy_only scenario_team sample_league 1 2021 mc_id
        scenario_metrics false []).1.worst_offense_score = 12 := by
  have h := claim_bad_boy_team_aggregates cfg_bad_boy_only scenario_team sample_league 1 2021
    mc_id scenario_metrics false [] rfl
  exact ⟨rfl, h.1.trans (by decide), h.2.1.trans (by decide), h.2.2.1.trans (by decide)⟩

/-- C5: for every platform name outside the supported set,
`league_data_factory` aborts fatally with the unsupported-platform error
message; it neither falls back to a default platform nor returns a
(partial) league. -/
theorem claim_unsupported_platform_fatal (supported_platforms : List String)
    (platform : String) (yahoo_league fleaflicker_league sleeper_league espn_league : BaseLeague)
    (h : platform ∉ supported_platforms) :
    league_data_factory supported_platforms platform yahoo_league fleaflicker_league
        sleeper_league espn_league
      = FactoryResult.fatal (unsupported_platform_message platform) := by
  simp [league_data_factory, h]

/-- Witness for C5 at the platform name "myspace" and the discovered set
of the real `dao/platforms` package. -/
theorem claim_unsupported_platform_fatal_witness :
    "myspace" ∉ ["espn", "fleaflicker", "sleeper", "yahoo"]
    ∧ league_data_factory ["espn", "fleaflicker", "sleeper", "yahoo"] "myspace"
        sample_league sample_league sample_league sample_league
      = FactoryResult.fatal (unsupported_platform_message "myspace") :=
  ⟨by decide,
    claim_unsupported_platform_fatal ["espn", "fleaflicker", "sleeper", "yahoo"] "myspace"
      sample_league sample_league sample_league sample_league (by decide)⟩

/-- C10: a platform name that is in the dynamically discovered supported
set but matches none of the four adapter branches makes
`league_data_factory` return Python's implicit `None`: no league and no
fatal abort. -/
theorem claim_supported_unmatched_platform_returns_none (supported_platforms : List String)
    (platform : String) (yahoo_league fleaflicker_league sleeper_league espn_league : BaseLeague)
    (h1 : platform ∈ supported_platforms)
    (h2 : platform ∉ ["yahoo", "fleaflicker", "sleeper", "espn"]) :
    league_data_factory supported_platforms platform yahoo_league fleaflicker_league
        sleeper_league espn_league
      = FactoryResult.none := by
  simp only [List.mem_cons, List.mem_singleton] at h2
  push_neg at h2
  obtain ⟨g1, g2, g3, g4⟩ := h2
  simp [league_data_factory, h1, g1, g2, g3, g4]

/-- Witness for C10: a module named "base" discovered alongside the four
adapters. -/
theorem claim_supported_unmatched_platform_returns_none_witness :
    "base" ∈ ["base", "espn", "fleaflicker", "sleeper", "yahoo"]
    ∧ "base" ∉ ["yahoo", "fleaflicker", "sleeper", "espn"]
    ∧ league_data_factory ["base", "espn", "fleaflicker", "sleeper", "yahoo"] "base"
        sample_league sample_league sample_league sample_league
      = FactoryResult.none :=
  ⟨by decide, by decide,
    claim_supported_unmatched_platform_returns_none
      ["base", "espn", "fleaflicker", "sleeper", "yahoo"] "base"
      sample_league sample_league sample_league sample_league (by decide) (by decide)⟩

/-- Counterexample to C6 as stated: for a historical season the function
does not accept the "default" sentinel as-is — the final
`int(week_for_report)` conversion raises an uncaught `ValueError`, so no
week is returned at all. -/
theorem claim_historical_week_passthrough_counterexample :
    user_week_input_validation 2026 10 WeekArg.default Option.none 5 2020 "y"
      = Except.error (int_parse_error "default") := rfl

/-- C6 (amended): for a season that is neither the current calendar-year
season nor the prior season within the off-season window, validation is
skipped and any numeric requested week — whether passed explicitly or
taken from the configuration, and including values outside
[1, NFL_SEASON_LENGTH] — is returned as-is; the "default" sentinel,
however, makes the final integer conversion raise a `ValueError`. -/
theorem claim_historical_week_passthrough (current_year current_month : ℤ)
    (config_week : WeekArg) (retrieved_current_week season n : ℤ) (answer : String)
    (h : ¬(current_year = season ∨ (current_year = season + 1 ∧ current_month < 9))) :
    user_week_input_validation current_year current_month config_week
        (some (WeekArg.num n)) retrieved_current_week season answer
      = Except.ok n
    ∧ user_week_input_validation current_year current_month (WeekArg.num n)
        Option.none retrieved_current_week season answer
      = Except.ok n
    ∧ user_week_input_validation current_year current_month WeekArg.default
        Option.none retrieved_current_week season answer
      = Except.error (int_parse_error "default") := by
  refine ⟨?_, ?_, ?_⟩ <;>
    · simp only [user_week_input_validation]
      rw [if_neg h]

/-- Witness for C6 (amended): season 2020 validated in October 2026 with
the out-of-range week 99. -/
theorem claim_historical_week_passthrough_witness :
    ¬((2026 : ℤ) = 2020 ∨ ((2026 : ℤ) = 2020 + 1 ∧ (10 : ℤ) < 9))
    ∧ (user_week_input_validation 2026 10 WeekArg.default (some (WeekArg.num 99)) 5 2020 "x"
        = Except.ok 99
      ∧ user_week_input_validation 2026 10 (WeekArg.num 99) Option.none 5 2020 "x"
        = Except.ok 99
      ∧ user_week_input_validation 2026 10 WeekArg.default Option.none 5 2020 "x"
        = Except.error (int_parse_error "default")) :=
  ⟨by decide,
    claim_historical_week_passthrough 2026 10 WeekArg.default 5 2020 99 "x" (by decide)⟩

/-- C8: `user_week_input_validation` is deterministic — two calls that
agree on the module clock, the configured week, the requested week, the
retrieved current week, the season and the supplied confirmation answer
resolve to the same result. -/
theorem claim_week_validation_deterministic (current_year current_month : ℤ)
    (config_week : WeekArg) (week : Option WeekArg) (retrieved_current_week season : ℤ)
    (answer : String) (current_year' current_month' : ℤ) (config_week' : WeekArg)
    (week' : Option WeekArg) (retrieved_current_week' season' : ℤ) (answer' : String)
    (h1 : current_year = current_year') (h2 : current_month = current_month')
    (h3 : config_week = config_week') (h4 : week = week')
    (h5 : retrieved_current_week = retrieved_current_week') (h6 : season = season')
    (h7 : answer = answer') :
    user_week_input_validation current_year current_month config_week week
        retrieved_current_week season answer
      = user_week_input_validation current_year' current_month' config_week' week'
        retrieved_current_week' season' answer' := by
  subst h1 h2 h3 h4 h5 h6 h7
  rfl

/-- Witness for C8 at a concrete call made twice. -/
theorem claim_week_validation_deterministic_witness :
    WeekArg.default = WeekArg.default
    ∧ user_week_input_validation 2021 11 WeekArg.default Option.none 5 2021 "y"
      = user_week_input_validation 2021 11 WeekArg.default Option.none 5 2021 "y" :=
  ⟨rfl,
    claim_week_validation_deterministic 2021 11 WeekArg.default Option.none 5 2021 "y"
      2021 11 WeekArg.default Option.none 5 2021 "y" rfl rfl rfl rfl rfl rfl rfl⟩

/-- C9: in offline mode, when the cached player-status fixture file for
the requested week is absent, `get_player_game_time_statuses` aborts
fatally instead of proceeding with an empty or partial result. -/
theorem claim_missing_offline_fixture_fatal (week : ℤ) (league : BaseLeague)
    (file_contents : String → Option String) (response_text : String)
    (hoff : league.offline = true)
    (hmiss : file_contents (player_status_file_path week league) = Option.none) :
    get_player_game_time_statuses week league file_contents response_text
      = Except.error (missing_fixture_message (player_status_file_path week league)) := by
  simp [get_player_game_time_statuses, hoff, hmiss]

/-- Witness for C9: the sample offline league with an empty file system. -/
theorem claim_missing_offline_fixture_fatal_witness :
    sample_league.offline = true
    ∧ (fun _ : String => (Option.none : Option String))
        (player_status_file_path 3 sample_league) = Option.none
    ∧ get_player_game_time_statuses 3 sample_league
        (fun _ => Option.none) "live response"
      = Except.error (missing_fixture_message (player_status_file_path 3 sample_league)) :=
  ⟨rfl, rfl,
    claim_missing_offline_fixture_fatal 3 sample_league (fun _ => Option.none)
      "live response" rfl rfl⟩

end ReportTools
